import Mathlib

/-! # Submenu-and-widget example application

A shallow embedding of `submenu_and_widget_app.c`.  The application is glue
code over three host-firmware objects (a `ViewDispatcher`, a `Submenu` and a
`Widget`).  The host objects are represented by one record, `Host`, and every
host call the source makes is a function on that record which also appends
the call to `Host.trace`.  The functions of the source keep their names and
their statement order.
-/

namespace SubmenuAndWidget

/-! ## Enumerations declared in the source -/

/-- The enumerator `ViewIndexSubmenu` of `ViewIndex`. -/
abbrev ViewIndexSubmenu : Nat := 0
/-- The enumerator `ViewIndexWidget1` of `ViewIndex`. -/
abbrev ViewIndexWidget1 : Nat := 1
/-- The enumerator `ViewIndexWidget2` of `ViewIndex`. -/
abbrev ViewIndexWidget2 : Nat := 2
/-- The enumerator `ViewIndexWidget3` of `ViewIndex`. -/
abbrev ViewIndexWidget3 : Nat := 3
/-- The enumerator `ViewIndexCount` of `ViewIndex`. -/
abbrev ViewIndexCount : Nat := 4

/-- The enumerator `SubmenuItemsBack` of `SubmenuItems` (never added to the menu). -/
abbrev SubmenuItemsBack : Nat := 0
/-- The enumerator `SubmenuItemsOption1` of `SubmenuItems`. -/
abbrev SubmenuItemsOption1 : Nat := 1
/-- The enumerator `SubmenuItemsOption2` of `SubmenuItems`. -/
abbrev SubmenuItemsOption2 : Nat := 2
/-- The enumerator `SubmenuItemsOption3` of `SubmenuItems`. -/
abbrev SubmenuItemsOption3 : Nat := 3

/-! ## Host types (declared in the firmware headers the source includes) -/

/-- Modelled from the spec: the button identifiers of the Panel widget; the
source names only the center button. -/
inductive GuiButtonType
  | GuiButtonTypeLeft
  | GuiButtonTypeCenter
  | GuiButtonTypeRight
deriving DecidableEq

/-- Modelled from the spec: the press kinds of an input ("short/long/etc");
the source names only the short press. -/
inductive InputType
  | InputTypePress
  | InputTypeRelease
  | InputTypeShort
  | InputTypeLong
  | InputTypeRepeat
deriving DecidableEq

/-- Modelled from the spec: text alignment of a Panel element; the source
uses only `AlignCenter`. -/
inductive Align
  | AlignLeft
  | AlignRight
  | AlignTop
  | AlignBottom
  | AlignCenter
deriving DecidableEq

/-- Modelled from the spec: font of a Panel text element; the source uses only
`FontSecondary`. -/
inductive Font
  | FontPrimary
  | FontSecondary
deriving DecidableEq

/-- Modelled from the spec: how a registry is attached to the display; the
source uses only the full-screen mode. -/
inductive ViewDispatcherType
  | ViewDispatcherTypeDesktop
  | ViewDispatcherTypeWindow
  | ViewDispatcherTypeFullscreen
deriving DecidableEq

/-- The `void* context` argument of every callback: either the null pointer or
the pointer to the one `SubmenuAndWidgetApp` that `app_alloc` creates. -/
inductive Context
  | NULL
  | app
deriving DecidableEq

/-- The function pointers the source hands to the host: its four static
callbacks. -/
inductive Callback
  | app_navigation_callback
  | app_custom_event_callback
  | app_button_callback
  | app_submenu_callback
deriving DecidableEq

/-- The two host views the application owns: `submenu_get_view(app->submenu)`
and `widget_get_view(app->widget)`. -/
inductive View
  | submenu_view
  | widget_view
deriving DecidableEq

/-- One element of the Panel widget, with the arguments of the host call that
added it. -/
inductive WidgetElement
  | string_multiline (x y : Nat) (horizontal vertical : Align) (font : Font) (text : String)
  | button (button_type : GuiButtonType) (text : String) (callback : Callback)
      (context : Context)
deriving DecidableEq

/-- One item of the Menu widget, with the arguments of `submenu_add_item`. -/
structure SubmenuItem where
  label : String
  index : Nat
  callback : Callback
  context : Context
deriving DecidableEq

/-- The host calls the source issues, with their arguments. -/
inductive HostCall
  | malloc
  | furi_record_open
  | submenu_alloc
  | submenu_add_item (label : String) (index : Nat) (callback : Callback) (context : Context)
  | widget_alloc
  | view_dispatcher_alloc
  | view_dispatcher_attach_to_gui (type : ViewDispatcherType)
  | view_dispatcher_add_view (view_id : Nat) (view : View)
  | view_dispatcher_set_custom_event_callback (callback : Callback)
  | view_dispatcher_set_navigation_event_callback (callback : Callback)
  | view_dispatcher_set_event_callback_context (context : Context)
  | view_dispatcher_remove_view (view_id : Nat)
  | view_dispatcher_free
  | widget_free
  | submenu_free
  | furi_record_close
  | free
  | view_dispatcher_switch_to_view (view_id : Nat)
  | view_dispatcher_run
  | view_dispatcher_stop
  | view_dispatcher_send_custom_event (event : Nat)
  | widget_reset
  | widget_add_string_multiline_element (x y : Nat) (horizontal vertical : Align)
      (font : Font) (text : String)
  | widget_add_button_element (button_type : GuiButtonType) (text : String)
      (callback : Callback) (context : Context)
deriving DecidableEq

/-- The ways a run does not return normally. -/
inductive Halt
  | assert_failed
  | host_crash
  | run_blocked
deriving DecidableEq

/-- The state of the host objects the application owns. -/
structure Host where
  /-- The items of the Menu widget, in insertion order. -/
  submenu_items : List SubmenuItem
  /-- The elements of the Panel widget (the Panel content), in insertion order. -/
  widget_elements : List WidgetElement
  /-- The registered view slots of the registry, in registration order. -/
  views : List (Nat × View)
  /-- The identifier of the displayed view, if one is displayed. -/
  current_view : Option Nat
  /-- The pending custom events, oldest first. -/
  custom_events : List Nat
  custom_event_callback : Option Callback
  navigation_event_callback : Option Callback
  event_context : Context
  /-- Whether the run loop has been asked to stop. -/
  stopped : Bool
  /-- Every host call issued so far, oldest first. -/
  trace : List HostCall
deriving DecidableEq

/-- The host before the application starts. -/
def Host.init : Host where
  submenu_items := []
  widget_elements := []
  views := []
  current_view := none
  custom_events := []
  custom_event_callback := none
  navigation_event_callback := none
  event_context := Context.NULL
  stopped := false
  trace := []

/-- Record one host call. -/
def Host.log (c : HostCall) (h : Host) : Host :=
  { h with trace := h.trace ++ [c] }

/-! ## Host operations -/

/-- Modelled from the spec: a precondition assertion, fatal if violated. -/
def furi_assert (cond : Bool) : Except Halt Unit :=
  if cond then pure () else throw Halt.assert_failed

/-- Modelled from the spec: allocate the controller's own memory. -/
def malloc (h : Host) : Host := h.log HostCall.malloc

/-- Modelled from the spec: acquire the shared GUI handle by name. -/
def furi_record_open (h : Host) : Host := h.log HostCall.furi_record_open

/-- Modelled from the spec: allocate a menu widget, with no item. -/
def submenu_alloc (h : Host) : Host :=
  { h with submenu_items := [] }.log HostCall.submenu_alloc

/-- Modelled from the spec: add a labeled item with callback and context. -/
def submenu_add_item (label : String) (index : Nat) (callback : Callback)
    (context : Context) (h : Host) : Host :=
  { h with submenu_items := h.submenu_items ++ [SubmenuItem.mk label index callback context] }.log
    (HostCall.submenu_add_item label index callback context)

/-- Modelled from the spec: allocate a panel widget, with no element. -/
def widget_alloc (h : Host) : Host :=
  { h with widget_elements := [] }.log HostCall.widget_alloc

/-- Modelled from the spec: allocate a view registry: no slot, nothing
displayed, no pending event, no callback. -/
def view_dispatcher_alloc (h : Host) : Host :=
  { h with
      views := []
      current_view := none
      custom_events := []
      custom_event_callback := none
      navigation_event_callback := none
      event_context := Context.NULL
      stopped := false }.log HostCall.view_dispatcher_alloc

/-- Modelled from the spec: attach the registry to the GUI handle. -/
def view_dispatcher_attach_to_gui (type : ViewDispatcherType) (h : Host) : Host :=
  h.log (HostCall.view_dispatcher_attach_to_gui type)

/-- Modelled from the spec: add a view by identifier. -/
def view_dispatcher_add_view (view_id : Nat) (view : View) (h : Host) : Host :=
  { h with views := h.views ++ [(view_id, view)] }.log
    (HostCall.view_dispatcher_add_view view_id view)

/-- Modelled from the spec: set the custom-event callback. -/
def view_dispatcher_set_custom_event_callback (callback : Callback) (h : Host) : Host :=
  { h with custom_event_callback := some callback }.log
    (HostCall.view_dispatcher_set_custom_event_callback callback)

/-- Modelled from the spec: set the navigation callback. -/
def view_dispatcher_set_navigation_event_callback (callback : Callback) (h : Host) : Host :=
  { h with navigation_event_callback := some callback }.log
    (HostCall.view_dispatcher_set_navigation_event_callback callback)

/-- Modelled from the spec: set the context passed to the registry callbacks. -/
def view_dispatcher_set_event_callback_context (context : Context) (h : Host) : Host :=
  { h with event_context := context }.log
    (HostCall.view_dispatcher_set_event_callback_context context)

/-- Modelled from the spec: remove a view by identifier. -/
def view_dispatcher_remove_view (view_id : Nat) (h : Host) : Host :=
  { h with views := h.views.filter (fun p => p.1 != view_id) }.log
    (HostCall.view_dispatcher_remove_view view_id)

/-- Modelled from the spec: free the registry; the host forbids destroying a
registry that still references views (the source: "Failure to do so will
result in a crash"). -/
def view_dispatcher_free (h : Host) : Except Halt Host :=
  if h.views.isEmpty then pure (h.log HostCall.view_dispatcher_free)
  else throw Halt.host_crash

/-- Modelled from the spec: free the panel widget. -/
def widget_free (h : Host) : Host := h.log HostCall.widget_free

/-- Modelled from the spec: free the menu widget. -/
def submenu_free (h : Host) : Host := h.log HostCall.submenu_free

/-- Modelled from the spec: release the shared GUI handle. -/
def furi_record_close (h : Host) : Host := h.log HostCall.furi_record_close

/-- Modelled from the spec: free the controller's own memory. -/
def free (h : Host) : Host := h.log HostCall.free

/-- Modelled from the spec: request an immediate view switch: the registry
displays the view at that identifier. -/
def view_dispatcher_switch_to_view (view_id : Nat) (h : Host) : Host :=
  { h with current_view := some view_id }.log (HostCall.view_dispatcher_switch_to_view view_id)

/-- Modelled from the spec: stop the run loop. -/
def view_dispatcher_stop (h : Host) : Host :=
  { h with stopped := true }.log HostCall.view_dispatcher_stop

/-- Modelled from the spec: request a custom event: it is enqueued for a later
turn of the run loop. -/
def view_dispatcher_send_custom_event (event : Nat) (h : Host) : Host :=
  { h with custom_events := h.custom_events ++ [event] }.log
    (HostCall.view_dispatcher_send_custom_event event)

/-- Modelled from the spec: clear the elements of the panel widget. -/
def widget_reset (h : Host) : Host :=
  { h with widget_elements := [] }.log HostCall.widget_reset

/-- Modelled from the spec: add a multiline text element to the panel widget. -/
def widget_add_string_multiline_element (x y : Nat) (horizontal vertical : Align)
    (font : Font) (text : String) (h : Host) : Host :=
  { h with widget_elements :=
      h.widget_elements ++ [WidgetElement.string_multiline x y horizontal vertical font text] }.log
    (HostCall.widget_add_string_multiline_element x y horizontal vertical font text)

/-- Modelled from the spec: add a button element to the panel widget. -/
def widget_add_button_element (button_type : GuiButtonType) (text : String)
    (callback : Callback) (context : Context) (h : Host) : Host :=
  { h with widget_elements :=
      h.widget_elements ++ [WidgetElement.button button_type text callback context] }.log
    (HostCall.widget_add_button_element button_type text callback context)

/-! ## The functions of the source -/

/-- The source function `app_navigation_callback`. -/
def app_navigation_callback (context : Context) (h : Host) : Except Halt (Bool × Host) := do
  furi_assert (context != Context.NULL)
  let h := view_dispatcher_stop h
  return (true, h)

/-- The source function `app_custom_event_callback`; its `uint32_t` argument is
a natural number (a 32-bit value is one below `2 ^ 32`), on which the source
does no arithmetic. -/
def app_custom_event_callback (context : Context) (event : Nat) (h : Host) :
    Except Halt (Bool × Host) := do
  furi_assert (context != Context.NULL)
  furi_assert (decide (event < ViewIndexCount))
  let h := view_dispatcher_switch_to_view event h
  return (true, h)

/-- The source function `app_button_callback`. -/
def app_button_callback (button_type : GuiButtonType) (input_type : InputType)
    (context : Context) (h : Host) : Except Halt Host := do
  furi_assert (context != Context.NULL)
  if button_type = GuiButtonType.GuiButtonTypeCenter ∧ input_type = InputType.InputTypeShort then
    return view_dispatcher_send_custom_event ViewIndexSubmenu h
  else
    return h

/-- The source function `app_submenu_callback`; its `uint32_t` argument is a
natural number. -/
def app_submenu_callback (context : Context) (index : Nat) (h : Host) : Except Halt Host := do
  furi_assert (context != Context.NULL)
  let h := widget_reset h
  if index = SubmenuItemsOption1 then
    let h := widget_add_string_multiline_element 64 32 Align.AlignCenter Align.AlignCenter
      Font.FontSecondary "Option 1 selected" h
    let h := widget_add_button_element GuiButtonType.GuiButtonTypeCenter "Back"
      Callback.app_button_callback context h
    return view_dispatcher_send_custom_event ViewIndexWidget1 h
  else if index = SubmenuItemsOption2 then
    let h := widget_add_string_multiline_element 64 32 Align.AlignCenter Align.AlignCenter
      Font.FontSecondary "Option 2 selected" h
    let h := widget_add_button_element GuiButtonType.GuiButtonTypeCenter "Back"
      Callback.app_button_callback context h
    return view_dispatcher_send_custom_event ViewIndexWidget2 h
  else if index = SubmenuItemsOption3 then
    let h := widget_add_string_multiline_element 64 32 Align.AlignCenter Align.AlignCenter
      Font.FontSecondary "Option 3 selected" h
    let h := widget_add_button_element GuiButtonType.GuiButtonTypeCenter "Back"
      Callback.app_button_callback context h
    return view_dispatcher_send_custom_event ViewIndexWidget3 h
  else
    return h

/-- The source function `app_alloc`; the returned pointer is `Context.app`. -/
def app_alloc (h : Host) : Host :=
  let h := malloc h
  let h := furi_record_open h
  let h := submenu_alloc h
  let h := submenu_add_item "Option 1" SubmenuItemsOption1 Callback.app_submenu_callback
    Context.app h
  let h := submenu_add_item "Option 2" SubmenuItemsOption2 Callback.app_submenu_callback
    Context.app h
  let h := submenu_add_item "Option 3" SubmenuItemsOption3 Callback.app_submenu_callback
    Context.app h
  let h := widget_alloc h
  let h := view_dispatcher_alloc h
  let h := view_dispatcher_attach_to_gui ViewDispatcherType.ViewDispatcherTypeFullscreen h
  let h := view_dispatcher_add_view ViewIndexSubmenu View.submenu_view h
  let h := view_dispatcher_add_view ViewIndexWidget1 View.widget_view h
  let h := view_dispatcher_add_view ViewIndexWidget2 View.widget_view h
  let h := view_dispatcher_add_view ViewIndexWidget3 View.widget_view h
  let h := view_dispatcher_set_custom_event_callback Callback.app_custom_event_callback h
  let h := view_dispatcher_set_navigation_event_callback Callback.app_navigation_callback h
  let h := view_dispatcher_set_event_callback_context Context.app h
  h

/-- The source function `app_free`. -/
def app_free (h : Host) : Except Halt Host := do
  let h := view_dispatcher_remove_view ViewIndexWidget1 h
  let h := view_dispatcher_remove_view ViewIndexWidget2 h
  let h := view_dispatcher_remove_view ViewIndexWidget3 h
  let h := view_dispatcher_remove_view ViewIndexSubmenu h
  let h ← view_dispatcher_free h
  let h := widget_free h
  let h := submenu_free h
  let h := furi_record_close h
  let h := free h
  return h

/-! ## The run loop of the host registry -/

/-- Modelled from the spec: what the user does on one turn of the run loop:
activate the menu item with an identifier, press a button of the Panel, or
send a back input. -/
inductive Input
  | menu_activate (index : Nat)
  | button_press (button_type : GuiButtonType) (input_type : InputType)
  | back
deriving DecidableEq

/-- Modelled from the spec: the view on screen, which is the view registered
at the displayed identifier. -/
def Host.displayed (h : Host) : Option View :=
  h.current_view.bind (fun view_id => h.views.lookup view_id)

/-- Whether a Panel element is a button of the given type. -/
def WidgetElement.is_button (button_type : GuiButtonType) : WidgetElement → Bool
  | WidgetElement.button t _ _ _ => decide (t = button_type)
  | WidgetElement.string_multiline _ _ _ _ _ _ => false

/-- Modelled from the spec: the Menu widget, on activation of an item, invokes
that item's callback with the item's context and identifier. -/
def host_activate_item (item : SubmenuItem) (h : Host) : Except Halt Host :=
  match item.callback with
  | Callback.app_submenu_callback => app_submenu_callback item.context item.index h
  | _ => pure h

/-- Modelled from the spec: the Panel widget, on activation of a button,
invokes that button's callback with the button identifier, the press kind and
the button's context. -/
def host_activate_button (element : WidgetElement) (input_type : InputType) (h : Host) :
    Except Halt Host :=
  match element with
  | WidgetElement.button button_type _ Callback.app_button_callback context =>
    app_button_callback button_type input_type context h
  | _ => pure h

/-- Modelled from the spec: the registry forwards an unhandled back input to
the navigation callback, with the registered context. -/
def host_back (h : Host) : Except Halt Host :=
  match h.navigation_event_callback with
  | some Callback.app_navigation_callback => do
    let r ← app_navigation_callback h.event_context h
    return r.2
  | _ => pure h

/-- Modelled from the spec: the registry routes one input to the view on
screen: an item activation reaches the Menu when the Menu is on screen and has
an item with that identifier, a button press reaches the Panel when the Panel
is on screen and has a button of that type, and a back input is unhandled by
both views. -/
def host_input (i : Input) (h : Host) : Except Halt Host :=
  match i with
  | Input.menu_activate index =>
    if h.displayed = some View.submenu_view then
      match h.submenu_items.find? (fun item => item.index == index) with
      | some item => host_activate_item item h
      | none => pure h
    else pure h
  | Input.button_press button_type input_type =>
    if h.displayed = some View.widget_view then
      match h.widget_elements.find? (WidgetElement.is_button button_type) with
      | some element => host_activate_button element input_type h
      | none => pure h
    else pure h
  | Input.back => host_back h

/-- Modelled from the spec: the registry takes the oldest pending custom event
off its queue and delivers it to the custom-event callback, with the
registered context. -/
def host_deliver (h : Host) : Except Halt Host :=
  match h.custom_events with
  | [] => pure h
  | event :: rest =>
    let h := { h with custom_events := rest }
    match h.custom_event_callback with
    | some Callback.app_custom_event_callback => do
      let r ← app_custom_event_callback h.event_context event h
      return r.2
    | _ => pure h

/-- Modelled from the spec: deliver pending custom events, oldest first, at
most `n` of them. -/
def host_deliver_pending : Nat → Host → Except Halt Host
  | 0, h => pure h
  | n + 1, h => do
    let h ← host_deliver h
    host_deliver_pending n h

/-- Modelled from the spec: one turn of the run loop, which routes the input
and then delivers the custom events pending at that point. -/
def host_turn (i : Input) (h : Host) : Except Halt Host := do
  let h ← host_input i h
  host_deliver_pending h.custom_events.length h

/-- Modelled from the spec: the blocking run call.  It takes one turn per
input; it returns once a stop has been requested, and never returns when the
inputs run out first. -/
def host_run_loop : List Input → Host → Except Halt Host
  | [], h => if h.stopped then pure h else throw Halt.run_blocked
  | i :: rest, h =>
    if h.stopped then pure h
    else do
      let h ← host_turn i h
      host_run_loop rest h

/-- Modelled from the spec: `view_dispatcher_run`, fed with the inputs of the
user. -/
def view_dispatcher_run (inputs : List Input) (h : Host) : Except Halt Host :=
  host_run_loop inputs (h.log HostCall.view_dispatcher_run)

/-- The source function `app_run`. -/
def app_run (inputs : List Input) (h : Host) : Except Halt Host := do
  let h := view_dispatcher_switch_to_view ViewIndexSubmenu h
  view_dispatcher_run inputs h

/-- The source function `submenu_and_widget_app_main`: the exit code and the
final host.  Its unused argument is left out; `inputs` is what the user does
while the run call blocks. -/
def submenu_and_widget_app_main (inputs : List Input) (h : Host) : Except Halt (Int × Host) := do
  let h := app_alloc h
  let h ← app_run inputs h
  let h ← app_free h
  return (0, h)

/-! ## Callback invocations in any order -/

/-- One invocation of a callback of the controller, with the controller as
context: a menu activation with any identifier, a button activation with any
button and press kind, or the delivery of the oldest pending custom event. -/
inductive Action
  | activate (index : Nat)
  | press (button_type : GuiButtonType) (input_type : InputType)
  | deliver
deriving DecidableEq

/-- Perform one action. -/
def Action.perform (a : Action) (h : Host) : Except Halt Host :=
  match a with
  | Action.activate index => app_submenu_callback Context.app index h
  | Action.press button_type input_type => app_button_callback button_type input_type Context.app h
  | Action.deliver => host_deliver h

/-- Perform a sequence of actions, stopping at the first failure. -/
def perform_all : List Action → Host → Except Halt Host
  | [], h => pure h
  | a :: rest, h => do
    let h ← a.perform h
    perform_all rest h

/-- The host after startup: `app_alloc`, then the switch in `app_run`. -/
def startup : Host :=
  view_dispatcher_switch_to_view ViewIndexSubmenu (app_alloc Host.init)

/-- The Panel content after option `i` was selected, as built by the branch of
`app_submenu_callback` for that option. -/
def panel_content (text : String) : List WidgetElement :=
  [WidgetElement.string_multiline 64 32 Align.AlignCenter Align.AlignCenter Font.FontSecondary text,
   WidgetElement.button GuiButtonType.GuiButtonTypeCenter "Back" Callback.app_button_callback
     Context.app]

/-- Selecting one option: what `app_submenu_callback` with identifier `index`
followed by the delivery of the posted event to `app_custom_event_callback`
must do on host `h`, for the panel identifier `view_id` and the text `text`. -/
def selects (index view_id : Nat) (text : String) (h : Host) : Prop :=
  ∃ h1 h2 : Host,
    app_submenu_callback Context.app index h = Except.ok h1 ∧
    h1.custom_events = h.custom_events ++ [view_id] ∧
    h1.trace = h.trace ++
      [HostCall.widget_reset,
       HostCall.widget_add_string_multiline_element 64 32 Align.AlignCenter Align.AlignCenter
         Font.FontSecondary text,
       HostCall.widget_add_button_element GuiButtonType.GuiButtonTypeCenter "Back"
         Callback.app_button_callback Context.app,
       HostCall.view_dispatcher_send_custom_event view_id] ∧
    h1.current_view = h.current_view ∧
    app_custom_event_callback Context.app view_id h1 = Except.ok (true, h2) ∧
    h2.current_view = some view_id ∧
    h2.widget_elements = panel_content text

/-- Whether a host call asks the run loop to stop. -/
def HostCall.is_stop : HostCall → Bool
  | HostCall.view_dispatcher_stop => true
  | _ => false

/-! ## The invariant of the running application -/

/-- Whether a host call is one the callbacks issue while the run loop runs. -/
def HostCall.is_runtime : HostCall → Bool
  | HostCall.view_dispatcher_switch_to_view _ => true
  | HostCall.view_dispatcher_stop => true
  | HostCall.view_dispatcher_send_custom_event _ => true
  | HostCall.widget_reset => true
  | HostCall.widget_add_string_multiline_element _ _ _ _ _ _ => true
  | HostCall.widget_add_button_element _ _ _ _ => true
  | _ => false

/-- The four slots `app_alloc` registers, in registration order. -/
def registered_views : List (Nat × View) :=
  [(ViewIndexSubmenu, View.submenu_view), (ViewIndexWidget1, View.widget_view),
   (ViewIndexWidget2, View.widget_view), (ViewIndexWidget3, View.widget_view)]

/-- The invariant of the host while the application runs: the registry has the
callbacks, the context and the four slots of `app_alloc`, every menu item and
every Panel button carries the controller as context, every pending custom
event is a view identifier, and a view with such an identifier is displayed. -/
structure Wired (h : Host) : Prop where
  custom : h.custom_event_callback = some Callback.app_custom_event_callback
  nav : h.navigation_event_callback = some Callback.app_navigation_callback
  ctx : h.event_context = Context.app
  views : h.views = registered_views
  items : ∀ item ∈ h.submenu_items, item.context = Context.app
  buttons : ∀ b t cb c, WidgetElement.button b t cb c ∈ h.widget_elements → c = Context.app
  events : ∀ e ∈ h.custom_events, e < ViewIndexCount
  shown : ∃ v, h.current_view = some v ∧ v < ViewIndexCount

/-- One or more callback invocations took the host from `h` to `h1`: the
invariant holds in `h1`, only run-time host calls were issued, and a requested
stop stays requested. -/
structure Step (h h1 : Host) : Prop where
  wired : Wired h1
  trace : ∃ t, h1.trace = h.trace ++ t ∧ t.all HostCall.is_runtime = true
  stop : h.stopped = true → h1.stopped = true

/-! ## The whole run -/

/-- The host calls of `app_alloc` and of `app_run` up to the blocking run
call, in the order of the source. -/
def startup_calls : List HostCall :=
  [HostCall.malloc,
   HostCall.furi_record_open,
   HostCall.submenu_alloc,
   HostCall.submenu_add_item "Option 1" SubmenuItemsOption1 Callback.app_submenu_callback
     Context.app,
   HostCall.submenu_add_item "Option 2" SubmenuItemsOption2 Callback.app_submenu_callback
     Context.app,
   HostCall.submenu_add_item "Option 3" SubmenuItemsOption3 Callback.app_submenu_callback
     Context.app,
   HostCall.widget_alloc,
   HostCall.view_dispatcher_alloc,
   HostCall.view_dispatcher_attach_to_gui ViewDispatcherType.ViewDispatcherTypeFullscreen,
   HostCall.view_dispatcher_add_view ViewIndexSubmenu View.submenu_view,
   HostCall.view_dispatcher_add_view ViewIndexWidget1 View.widget_view,
   HostCall.view_dispatcher_add_view ViewIndexWidget2 View.widget_view,
   HostCall.view_dispatcher_add_view ViewIndexWidget3 View.widget_view,
   HostCall.view_dispatcher_set_custom_event_callback Callback.app_custom_event_callback,
   HostCall.view_dispatcher_set_navigation_event_callback Callback.app_navigation_callback,
   HostCall.view_dispatcher_set_event_callback_context Context.app,
   HostCall.view_dispatcher_switch_to_view ViewIndexSubmenu,
   HostCall.view_dispatcher_run]

/-- The host calls of `app_free`, in the order of the source. -/
def teardown_calls : List HostCall :=
  [HostCall.view_dispatcher_remove_view ViewIndexWidget1,
   HostCall.view_dispatcher_remove_view ViewIndexWidget2,
   HostCall.view_dispatcher_remove_view ViewIndexWidget3,
   HostCall.view_dispatcher_remove_view ViewIndexSubmenu,
   HostCall.view_dispatcher_free,
   HostCall.widget_free,
   HostCall.submenu_free,
   HostCall.furi_record_close,
   HostCall.free]

/-- The identifier a host call registers a view under, if it registers one. -/
def HostCall.added_id : HostCall → Option Nat
  | HostCall.view_dispatcher_add_view view_id _ => some view_id
  | _ => none

/-- The identifier a host call removes from the registry, if it removes one. -/
def HostCall.removed_id : HostCall → Option Nat
  | HostCall.view_dispatcher_remove_view view_id => some view_id
  | _ => none

/-- Calls `a` and `b` are both issued in `t`, and every `a` comes before every
`b`. -/
def precedes (a b : HostCall) (t : List HostCall) : Prop :=
  ∃ l r, t = l ++ r ∧ a ∈ l ∧ a ∉ r ∧ b ∈ r ∧ b ∉ l

/-- The order the host calls of a whole run must respect: the GUI handle is
acquired before the Menu View, the Panel View and the registry are allocated;
each of the four slots is removed before the registry is freed; the registry
is freed before the Panel View and the Menu View; both are freed before the
GUI handle is released; the controller's memory is freed last; and the slots
registered are the slots removed, each once. -/
def call_order (t : List HostCall) : Prop :=
  precedes HostCall.furi_record_open HostCall.submenu_alloc t ∧
  precedes HostCall.furi_record_open HostCall.widget_alloc t ∧
  precedes HostCall.furi_record_open HostCall.view_dispatcher_alloc t ∧
  precedes (HostCall.view_dispatcher_remove_view ViewIndexSubmenu)
    HostCall.view_dispatcher_free t ∧
  precedes (HostCall.view_dispatcher_remove_view ViewIndexWidget1)
    HostCall.view_dispatcher_free t ∧
  precedes (HostCall.view_dispatcher_remove_view ViewIndexWidget2)
    HostCall.view_dispatcher_free t ∧
  precedes (HostCall.view_dispatcher_remove_view ViewIndexWidget3)
    HostCall.view_dispatcher_free t ∧
  precedes HostCall.view_dispatcher_free HostCall.widget_free t ∧
  precedes HostCall.view_dispatcher_free HostCall.submenu_free t ∧
  precedes HostCall.widget_free HostCall.furi_record_close t ∧
  precedes HostCall.submenu_free HostCall.furi_record_close t ∧
  t.getLast? = some HostCall.free ∧
  t.filterMap HostCall.added_id =
    [ViewIndexSubmenu, ViewIndexWidget1, ViewIndexWidget2, ViewIndexWidget3] ∧
  t.filterMap HostCall.removed_id =
    [ViewIndexWidget1, ViewIndexWidget2, ViewIndexWidget3, ViewIndexSubmenu] ∧
  (t.filterMap HostCall.added_id).Perm (t.filterMap HostCall.removed_id)

/-! ## Lemmas -/

theorem app_submenu_callback_option1 (h : Host) :
    app_submenu_callback Context.app 1 h = Except.ok
      (view_dispatcher_send_custom_event ViewIndexWidget1
        (widget_add_button_element GuiButtonType.GuiButtonTypeCenter "Back"
          Callback.app_button_callback Context.app
          (widget_add_string_multiline_element 64 32 Align.AlignCenter Align.AlignCenter
            Font.FontSecondary "Option 1 selected" (widget_reset h)))) := rfl

theorem app_submenu_callback_option2 (h : Host) :
    app_submenu_callback Context.app 2 h = Except.ok
      (view_dispatcher_send_custom_event ViewIndexWidget2
        (widget_add_button_element GuiButtonType.GuiButtonTypeCenter "Back"
          Callback.app_button_callback Context.app
          (widget_add_string_multiline_element 64 32 Align.AlignCenter Align.AlignCenter
            Font.FontSecondary "Option 2 selected" (widget_reset h)))) := rfl

theorem app_submenu_callback_option3 (h : Host) :
    app_submenu_callback Context.app 3 h = Except.ok
      (view_dispatcher_send_custom_event ViewIndexWidget3
        (widget_add_button_element GuiButtonType.GuiButtonTypeCenter "Back"
          Callback.app_button_callback Context.app
          (widget_add_string_multiline_element 64 32 Align.AlignCenter Align.AlignCenter
            Font.FontSecondary "Option 3 selected" (widget_reset h)))) := rfl

theorem app_submenu_callback_other (index : Nat) (h : Host)
    (h1 : index ≠ 1) (h2 : index ≠ 2) (h3 : index ≠ 3) :
    app_submenu_callback Context.app index h = Except.ok (widget_reset h) := by
  simp [app_submenu_callback, furi_assert, h1, h2, h3]
  rfl

theorem app_custom_event_callback_app (event : Nat) (h : Host) :
    app_custom_event_callback Context.app event h =
      if event < ViewIndexCount then Except.ok (true, view_dispatcher_switch_to_view event h)
      else Except.error Halt.assert_failed := by
  by_cases hlt : event < 4
  · simp [app_custom_event_callback, furi_assert, hlt]; rfl
  · simp [app_custom_event_callback, furi_assert, hlt]; rfl

theorem app_button_callback_app (button_type : GuiButtonType) (input_type : InputType)
    (h : Host) :
    app_button_callback button_type input_type Context.app h = Except.ok
      (if button_type = GuiButtonType.GuiButtonTypeCenter ∧ input_type = InputType.InputTypeShort
       then view_dispatcher_send_custom_event ViewIndexSubmenu h else h) := by
  by_cases hc : button_type = GuiButtonType.GuiButtonTypeCenter ∧
      input_type = InputType.InputTypeShort
  · simp [app_button_callback, furi_assert, hc]; rfl
  · simp only [app_button_callback, furi_assert, hc]; rfl

theorem selected_trace (view_id : Nat) (text : String) (h : Host) :
    (view_dispatcher_send_custom_event view_id
      (widget_add_button_element GuiButtonType.GuiButtonTypeCenter "Back"
        Callback.app_button_callback Context.app
        (widget_add_string_multiline_element 64 32 Align.AlignCenter Align.AlignCenter
          Font.FontSecondary text (widget_reset h)))).trace =
    h.trace ++
      [HostCall.widget_reset,
       HostCall.widget_add_string_multiline_element 64 32 Align.AlignCenter Align.AlignCenter
         Font.FontSecondary text,
       HostCall.widget_add_button_element GuiButtonType.GuiButtonTypeCenter "Back"
         Callback.app_button_callback Context.app,
       HostCall.view_dispatcher_send_custom_event view_id] := by
  simp [view_dispatcher_send_custom_event, widget_add_button_element,
    widget_add_string_multiline_element, widget_reset, Host.log]

theorem Step.refl {h : Host} (w : Wired h) : Step h h :=
  ⟨w, ⟨[], by simp⟩, id⟩

theorem Step.trans {h h1 h2 : Host} (a : Step h h1) (b : Step h1 h2) : Step h h2 := by
  obtain ⟨t1, e1, r1⟩ := a.trace
  obtain ⟨t2, e2, r2⟩ := b.trace
  refine ⟨b.wired, ⟨t1 ++ t2, by rw [e2, e1, List.append_assoc], ?_⟩,
    fun hs => b.stop (a.stop hs)⟩
  rw [List.all_append, r1, r2]; rfl

theorem wired_startup : Wired startup where
  custom := rfl
  nav := rfl
  ctx := rfl
  views := rfl
  items := by decide
  buttons := by intro b t cb c hm; cases hm
  events := by intro e hm; cases hm
  shown := ⟨0, rfl, by decide⟩

theorem step_submenu {h : Host} (w : Wired h) (index : Nat) :
    ∃ h1, app_submenu_callback Context.app index h = Except.ok h1 ∧ Step h h1 ∧
      h1.stopped = h.stopped := by
  have key : ∀ (view_id : Nat) (text : String), view_id < ViewIndexCount →
      Step h (view_dispatcher_send_custom_event view_id
        (widget_add_button_element GuiButtonType.GuiButtonTypeCenter "Back"
          Callback.app_button_callback Context.app
          (widget_add_string_multiline_element 64 32 Align.AlignCenter Align.AlignCenter
            Font.FontSecondary text (widget_reset h)))) := by
    intro view_id text hv
    refine ⟨⟨w.custom, w.nav, w.ctx, w.views, w.items, ?_, ?_, w.shown⟩,
      ⟨_, selected_trace view_id text h, rfl⟩, id⟩
    · intro b t cb c hm
      simp [view_dispatcher_send_custom_event, widget_add_button_element,
        widget_add_string_multiline_element, widget_reset, Host.log] at hm
      exact hm.2.2.2
    · intro e hm
      simp [view_dispatcher_send_custom_event, widget_add_button_element,
        widget_add_string_multiline_element, widget_reset, Host.log] at hm
      rcases hm with hm | hm
      · exact w.events e hm
      · omega
  by_cases e1 : index = 1
  · subst e1; exact ⟨_, app_submenu_callback_option1 h, key _ _ (by decide), rfl⟩
  by_cases e2 : index = 2
  · subst e2; exact ⟨_, app_submenu_callback_option2 h, key _ _ (by decide), rfl⟩
  by_cases e3 : index = 3
  · subst e3; exact ⟨_, app_submenu_callback_option3 h, key _ _ (by decide), rfl⟩
  · refine ⟨_, app_submenu_callback_other index h e1 e2 e3, ⟨?_, ⟨[_], rfl, rfl⟩, id⟩, rfl⟩
    refine ⟨w.custom, w.nav, w.ctx, w.views, w.items, ?_, w.events, w.shown⟩
    intro b t cb c hm
    cases hm

theorem step_button {h : Host} (w : Wired h) (button_type : GuiButtonType)
    (input_type : InputType) :
    ∃ h1, app_button_callback button_type input_type Context.app h = Except.ok h1 ∧
      Step h h1 ∧ h1.stopped = h.stopped := by
  refine ⟨_, app_button_callback_app button_type input_type h, ?_⟩
  by_cases hc : button_type = GuiButtonType.GuiButtonTypeCenter ∧
      input_type = InputType.InputTypeShort
  · rw [if_pos hc]
    refine ⟨⟨⟨w.custom, w.nav, w.ctx, w.views, w.items, w.buttons, ?_, w.shown⟩,
      ⟨[_], rfl, rfl⟩, id⟩, rfl⟩
    intro e hm
    simp [view_dispatcher_send_custom_event, Host.log] at hm
    rcases hm with hm | hm
    · exact w.events e hm
    · rw [hm]; decide
  · rw [if_neg hc]
    exact ⟨Step.refl w, rfl⟩

theorem step_deliver {h : Host} (w : Wired h) :
    ∃ h1, host_deliver h = Except.ok h1 ∧ Step h h1 ∧ h1.stopped = h.stopped := by
  unfold host_deliver
  cases hq : h.custom_events with
  | nil => exact ⟨h, rfl, Step.refl w, rfl⟩
  | cons event rest =>
    have hlt : event < ViewIndexCount := w.events event (by rw [hq]; simp)
    simp only [w.custom, w.ctx, app_custom_event_callback_app, if_pos hlt]
    refine ⟨_, rfl, ⟨⟨rfl, w.nav, rfl, w.views, w.items, w.buttons, ?_,
      ⟨event, rfl, hlt⟩⟩, ⟨[_], rfl, rfl⟩, id⟩, rfl⟩
    intro e hm
    exact w.events e (by rw [hq]; exact List.mem_cons_of_mem _ hm)

theorem step_deliver_pending (n : Nat) {h : Host} (w : Wired h) :
    ∃ h1, host_deliver_pending n h = Except.ok h1 ∧ Step h h1 ∧ h1.stopped = h.stopped := by
  induction n generalizing h with
  | zero => exact ⟨h, rfl, Step.refl w, rfl⟩
  | succ n ih =>
    obtain ⟨h1, e1, s1, k1⟩ := step_deliver w
    obtain ⟨h2, e2, s2, k2⟩ := ih s1.wired
    refine ⟨h2, ?_, s1.trans s2, k2.trans k1⟩
    simp only [host_deliver_pending, e1]
    exact e2

theorem step_back {h : Host} (w : Wired h) :
    ∃ h1, host_back h = Except.ok h1 ∧ Step h h1 ∧ h1.stopped = true := by
  refine ⟨view_dispatcher_stop h, ?_, ⟨⟨w.custom, w.nav, w.ctx, w.views, w.items, w.buttons,
    w.events, w.shown⟩, ⟨[_], rfl, rfl⟩, fun _ => rfl⟩, rfl⟩
  simp only [host_back, w.nav, w.ctx]
  rfl

theorem step_input {h : Host} (w : Wired h) (i : Input) :
    ∃ h1, host_input i h = Except.ok h1 ∧ Step h h1 ∧
      (i = Input.back → h1.stopped = true) ∧ (i ≠ Input.back → h1.stopped = h.stopped) := by
  cases i with
  | menu_activate index =>
    simp only [host_input]
    split
    · split
      · rename_i item hf
        have hc := w.items item (List.mem_of_find?_eq_some hf)
        unfold host_activate_item
        split
        · rw [hc]
          obtain ⟨h1, e, s, k⟩ := step_submenu w item.index
          exact ⟨h1, e, s, (by intro x; cases x), fun _ => k⟩
        · exact ⟨h, rfl, Step.refl w, (by intro x; cases x), fun _ => rfl⟩
      · exact ⟨h, rfl, Step.refl w, (by intro x; cases x), fun _ => rfl⟩
    · exact ⟨h, rfl, Step.refl w, (by intro x; cases x), fun _ => rfl⟩
  | button_press button_type input_type =>
    simp only [host_input]
    split
    · split
      · rename_i element hf
        have hm := List.mem_of_find?_eq_some hf
        unfold host_activate_button
        split
        · rename_i b t c
          have hc := w.buttons _ _ _ _ hm
          rw [hc]
          obtain ⟨h1, e, s, k⟩ := step_button w b input_type
          exact ⟨h1, e, s, (by intro x; cases x), fun _ => k⟩
        · exact ⟨h, rfl, Step.refl w, (by intro x; cases x), fun _ => rfl⟩
      · exact ⟨h, rfl, Step.refl w, (by intro x; cases x), fun _ => rfl⟩
    · exact ⟨h, rfl, Step.refl w, (by intro x; cases x), fun _ => rfl⟩
  | back =>
    obtain ⟨h1, e, s, k⟩ := step_back w
    exact ⟨h1, e, s, fun _ => k, fun hx => absurd rfl hx⟩

theorem step_turn {h : Host} (w : Wired h) (i : Input) :
    ∃ h1, host_turn i h = Except.ok h1 ∧ Step h h1 ∧
      (i = Input.back → h1.stopped = true) ∧ (i ≠ Input.back → h1.stopped = h.stopped) := by
  obtain ⟨h1, e1, s1, k1, n1⟩ := step_input w i
  obtain ⟨h2, e2, s2, k2⟩ := step_deliver_pending h1.custom_events.length s1.wired
  refine ⟨h2, ?_, s1.trans s2, fun hi => by rw [k2]; exact k1 hi,
    fun hi => by rw [k2]; exact n1 hi⟩
  simp only [host_turn, e1]
  exact e2

theorem run_loop_stopped (inputs : List Input) (h : Host) (hs : h.stopped = true) :
    host_run_loop inputs h = Except.ok h := by
  cases inputs <;> simp [host_run_loop, hs] <;> rfl

theorem run_loop_returns (inputs : List Input) {h : Host} (w : Wired h)
    (hb : Input.back ∈ inputs) :
    ∃ h1, host_run_loop inputs h = Except.ok h1 ∧ Step h h1 ∧ h1.stopped = true := by
  induction inputs generalizing h with
  | nil => cases hb
  | cons i rest ih =>
    by_cases hs : h.stopped = true
    · exact ⟨h, run_loop_stopped _ h hs, Step.refl w, hs⟩
    · obtain ⟨h1, e1, s1, k1, _⟩ := step_turn w i
      have hrun : host_run_loop (i :: rest) h = host_run_loop rest h1 := by
        simp only [host_run_loop, hs, e1]
        rfl
      rw [hrun]
      by_cases hi : i = Input.back
      · exact ⟨h1, run_loop_stopped _ h1 (k1 hi), s1, k1 hi⟩
      · have hr : Input.back ∈ rest := by
          rcases List.mem_cons.mp hb with hx | hx
          · exact absurd hx.symm hi
          · exact hx
        obtain ⟨h2, e2, s2, k2⟩ := ih s1.wired hr
        exact ⟨h2, e2, s1.trans s2, k2⟩

theorem run_loop_blocks (inputs : List Input) {h : Host} (w : Wired h)
    (hb : Input.back ∉ inputs) (hs : h.stopped = false) :
    host_run_loop inputs h = Except.error Halt.run_blocked := by
  induction inputs generalizing h with
  | nil => simp [host_run_loop, hs]; rfl
  | cons i rest ih =>
    obtain ⟨h1, e1, s1, _, n1⟩ := step_turn w i
    have hi : i ≠ Input.back := fun hx => hb (by rw [hx]; simp)
    have hr : Input.back ∉ rest := fun hx => hb (List.mem_cons_of_mem _ hx)
    have hrun : host_run_loop (i :: rest) h = host_run_loop rest h1 := by
      simp only [host_run_loop, hs, e1]
      rfl
    rw [hrun]
    exact ih s1.wired hr (by rw [n1 hi]; exact hs)

theorem perform_all_wired (actions : List Action) {h : Host} (w : Wired h) :
    ∃ h1, perform_all actions h = Except.ok h1 ∧ Step h h1 := by
  induction actions generalizing h with
  | nil => exact ⟨h, rfl, Step.refl w⟩
  | cons a rest ih =>
    have ha : ∃ h1, a.perform h = Except.ok h1 ∧ Step h h1 := by
      cases a with
      | activate index =>
        obtain ⟨h1, e, s, _⟩ := step_submenu w index
        exact ⟨h1, e, s⟩
      | press button_type input_type =>
        obtain ⟨h1, e, s, _⟩ := step_button w button_type input_type
        exact ⟨h1, e, s⟩
      | deliver =>
        obtain ⟨h1, e, s, _⟩ := step_deliver w
        exact ⟨h1, e, s⟩
    obtain ⟨h1, e1, s1⟩ := ha
    obtain ⟨h2, e2, s2⟩ := ih s1.wired
    refine ⟨h2, ?_, s1.trans s2⟩
    simp only [perform_all, e1]
    exact e2

theorem wired_log_run {h : Host} (w : Wired h) : Wired (h.log HostCall.view_dispatcher_run) :=
  ⟨w.custom, w.nav, w.ctx, w.views, w.items, w.buttons, w.events, w.shown⟩

theorem app_free_registered (h : Host) (hv : h.views = registered_views) :
    ∃ h1, app_free h = Except.ok h1 ∧ h1.trace = h.trace ++ teardown_calls := by
  simp [app_free, view_dispatcher_remove_view, view_dispatcher_free, widget_free, submenu_free,
    furi_record_close, free, Host.log, hv, registered_views, teardown_calls, bind, Except.bind,
    pure, Except.pure]

theorem main_returns (inputs : List Input) (hb : Input.back ∈ inputs) :
    ∃ final mid, submenu_and_widget_app_main inputs Host.init = Except.ok (0, final) ∧
      final.trace = startup_calls ++ mid ++ teardown_calls ∧
      mid.all HostCall.is_runtime = true := by
  obtain ⟨h1, e1, s1, _⟩ := run_loop_returns inputs (wired_log_run wired_startup) hb
  obtain ⟨mid, em, rm⟩ := s1.trace
  obtain ⟨h2, e2, t2⟩ := app_free_registered h1 s1.wired.views
  refine ⟨h2, mid, ?_, ?_, rm⟩
  · have hrun : app_run inputs (app_alloc Host.init) = Except.ok h1 := e1
    simp only [submenu_and_widget_app_main, hrun]
    show (app_free h1 >>= fun h => pure (0, h)) = Except.ok (0, h2)
    rw [e2]
    rfl
  · rw [t2, em]
    rfl

theorem main_blocks (inputs : List Input) (hb : Input.back ∉ inputs) :
    submenu_and_widget_app_main inputs Host.init = Except.error Halt.run_blocked := by
  have hrun : app_run inputs (app_alloc Host.init) = Except.error Halt.run_blocked :=
    run_loop_blocks inputs (wired_log_run wired_startup) hb rfl
  simp only [submenu_and_widget_app_main, hrun]
  rfl

theorem not_mem_of_runtime {mid : List HostCall} (hm : mid.all HostCall.is_runtime = true)
    {c : HostCall} (hc : c.is_runtime = false) : c ∉ mid := by
  intro hx
  have := List.all_eq_true.mp hm c hx
  rw [hc] at this
  cases this

theorem precedes_in_startup (s1 s2 : List HostCall) {mid f : List HostCall} {a b : HostCall}
    (hm : mid.all HostCall.is_runtime = true) (ha : a.is_runtime = false)
    (h1 : a ∈ s1) (h2 : a ∉ s2 ++ f) (h3 : b ∈ s2) (h4 : b ∉ s1) :
    precedes a b ((s1 ++ s2) ++ mid ++ f) := by
  refine ⟨s1, s2 ++ mid ++ f, by simp, h1, ?_, by simp [h3], h4⟩
  have := not_mem_of_runtime hm ha
  simp only [List.mem_append, not_or] at h2 ⊢
  exact ⟨⟨h2.1, this⟩, h2.2⟩

theorem precedes_in_teardown (f1 f2 : List HostCall) {s mid : List HostCall} {a b : HostCall}
    (hm : mid.all HostCall.is_runtime = true) (hb : b.is_runtime = false)
    (h1 : a ∈ f1) (h2 : a ∉ f2) (h3 : b ∈ f2) (h4 : b ∉ s ++ f1) :
    precedes a b (s ++ mid ++ (f1 ++ f2)) := by
  refine ⟨s ++ mid ++ f1, f2, by simp, by simp [h1], h2, h3, ?_⟩
  have := not_mem_of_runtime hm hb
  simp only [List.mem_append, not_or] at h4 ⊢
  exact ⟨⟨h4.1, this⟩, h4.2⟩

theorem filterMap_added_runtime {mid : List HostCall}
    (hm : mid.all HostCall.is_runtime = true) : mid.filterMap HostCall.added_id = [] := by
  induction mid with
  | nil => rfl
  | cons c rest ih =>
    rw [List.all_cons, Bool.and_eq_true] at hm
    cases c <;> simp_all [HostCall.added_id, HostCall.is_runtime]

theorem filterMap_removed_runtime {mid : List HostCall}
    (hm : mid.all HostCall.is_runtime = true) : mid.filterMap HostCall.removed_id = [] := by
  induction mid with
  | nil => rfl
  | cons c rest ih =>
    rw [List.all_cons, Bool.and_eq_true] at hm
    cases c <;> simp_all [HostCall.removed_id, HostCall.is_runtime]

theorem call_order_of_run (mid : List HostCall) (hm : mid.all HostCall.is_runtime = true) :
    call_order (startup_calls ++ mid ++ teardown_calls) := by
  have ha : (startup_calls ++ mid ++ teardown_calls).filterMap HostCall.added_id =
      [ViewIndexSubmenu, ViewIndexWidget1, ViewIndexWidget2, ViewIndexWidget3] := by
    rw [List.filterMap_append, List.filterMap_append, filterMap_added_runtime hm]
    rfl
  have hr : (startup_calls ++ mid ++ teardown_calls).filterMap HostCall.removed_id =
      [ViewIndexWidget1, ViewIndexWidget2, ViewIndexWidget3, ViewIndexSubmenu] := by
    rw [List.filterMap_append, List.filterMap_append, filterMap_removed_runtime hm]
    rfl
  refine ⟨?_, ?_, ?_, ?_, ?_, ?_, ?_, ?_, ?_, ?_, ?_, ?_, ha, hr, ?_⟩
  · exact precedes_in_startup (startup_calls.take 2) (startup_calls.drop 2) hm rfl
      (by decide) (by decide) (by decide) (by decide)
  · exact precedes_in_startup (startup_calls.take 2) (startup_calls.drop 2) hm rfl
      (by decide) (by decide) (by decide) (by decide)
  · exact precedes_in_startup (startup_calls.take 2) (startup_calls.drop 2) hm rfl
      (by decide) (by decide) (by decide) (by decide)
  · exact precedes_in_teardown (teardown_calls.take 4) (teardown_calls.drop 4) hm
      rfl (by decide) (by decide) (by decide) (by decide)
  · exact precedes_in_teardown (teardown_calls.take 4) (teardown_calls.drop 4) hm
      rfl (by decide) (by decide) (by decide) (by decide)
  · exact precedes_in_teardown (teardown_calls.take 4) (teardown_calls.drop 4) hm
      rfl (by decide) (by decide) (by decide) (by decide)
  · exact precedes_in_teardown (teardown_calls.take 4) (teardown_calls.drop 4) hm
      rfl (by decide) (by decide) (by decide) (by decide)
  · exact precedes_in_teardown (teardown_calls.take 5) (teardown_calls.drop 5) hm
      rfl (by decide) (by decide) (by decide) (by decide)
  · exact precedes_in_teardown (teardown_calls.take 5) (teardown_calls.drop 5) hm
      rfl (by decide) (by decide) (by decide) (by decide)
  · exact precedes_in_teardown (teardown_calls.take 7) (teardown_calls.drop 7) hm
      rfl (by decide) (by decide) (by decide) (by decide)
  · exact precedes_in_teardown (teardown_calls.take 7) (teardown_calls.drop 7) hm
      rfl (by decide) (by decide) (by decide) (by decide)
  · simp [teardown_calls]
  · rw [ha, hr]
    decide

/-! ## Properties of the application -/

/-- C1: for each of the three options and every prior host state (any Panel
content, any displayed view, any pending events), `app_submenu_callback` with
that option's identifier posts exactly one custom event, the identifier of the
matching Panel slot, and delivering it to `app_custom_event_callback` leaves
that slot displayed and the Panel content equal to exactly the centered text
"Option i selected" and the center "Back" button routed to
`app_button_callback`. -/
theorem select_option_shows_panel (h : Host) :
    selects SubmenuItemsOption1 ViewIndexWidget1 "Option 1 selected" h ∧
    selects SubmenuItemsOption2 ViewIndexWidget2 "Option 2 selected" h ∧
    selects SubmenuItemsOption3 ViewIndexWidget3 "Option 3 selected" h := by
  exact ⟨⟨_, _, app_submenu_callback_option1 h, rfl, selected_trace _ _ h, rfl, rfl, rfl, rfl⟩,
    ⟨_, _, app_submenu_callback_option2 h, rfl, selected_trace _ _ h, rfl, rfl, rfl, rfl⟩,
    ⟨_, _, app_submenu_callback_option3 h, rfl, selected_trace _ _ h, rfl, rfl, rfl, rfl⟩⟩

/-- C2: with a non-null context, `app_custom_event_callback` on an event value
below the identifier count asks the registry to display that view, which
becomes the displayed view, and reports the event as handled; on any other
value it fails with the fatal assertion. -/
theorem custom_event_switches_or_asserts (event : Nat) (h : Host) :
    app_custom_event_callback Context.app event h =
      (if event < ViewIndexCount then Except.ok (true, view_dispatcher_switch_to_view event h)
       else Except.error Halt.assert_failed) ∧
    (view_dispatcher_switch_to_view event h).current_view = some event ∧
    (view_dispatcher_switch_to_view event h).trace =
      h.trace ++ [HostCall.view_dispatcher_switch_to_view event] :=
  ⟨app_custom_event_callback_app event h, rfl, rfl⟩

/-- C3: `app_button_callback` posts exactly one custom event, the Menu
identifier, when the button is the center button and the press is short, and
does nothing for every other combination; in both cases the displayed view and
the Panel content are unchanged. -/
theorem button_callback_posts_menu_event (button_type : GuiButtonType)
    (input_type : InputType) (h : Host) :
    ∃ h1 : Host,
      app_button_callback button_type input_type Context.app h = Except.ok h1 ∧
      h1.current_view = h.current_view ∧
      h1.widget_elements = h.widget_elements ∧
      (if button_type = GuiButtonType.GuiButtonTypeCenter ∧ input_type = InputType.InputTypeShort
       then h1.custom_events = h.custom_events ++ [ViewIndexSubmenu] ∧
         h1.trace = h.trace ++ [HostCall.view_dispatcher_send_custom_event ViewIndexSubmenu]
       else h1 = h) := by
  refine ⟨_, app_button_callback_app button_type input_type h, ?_⟩
  by_cases hc : button_type = GuiButtonType.GuiButtonTypeCenter ∧
      input_type = InputType.InputTypeShort
  · simp [hc, view_dispatcher_send_custom_event, Host.log]
  · simp [hc]

/-- C4: the end-to-end scenario.  After startup the Menu is displayed; the
turn that activates Option2 ends with Panel-2 displayed and the Panel holding
"Option 2 selected" and the "Back" button; the turn with a short press of the
center button ends with the Menu displayed; the turn with a back input ends
with the stop requested, so that the run loop returns; `app_free` then
succeeds and `submenu_and_widget_app_main` returns exit code 0. -/
theorem end_to_end_scenario :
    ∃ s0 s1 s2 s3 final : Host,
      view_dispatcher_switch_to_view ViewIndexSubmenu (app_alloc Host.init) = s0 ∧
      s0.current_view = some ViewIndexSubmenu ∧
      s0.displayed = some View.submenu_view ∧
      host_turn (Input.menu_activate SubmenuItemsOption2)
        (s0.log HostCall.view_dispatcher_run) = Except.ok s1 ∧
      s1.current_view = some ViewIndexWidget2 ∧
      s1.displayed = some View.widget_view ∧
      s1.widget_elements = panel_content "Option 2 selected" ∧
      s1.stopped = false ∧
      host_turn (Input.button_press GuiButtonType.GuiButtonTypeCenter InputType.InputTypeShort)
        s1 = Except.ok s2 ∧
      s2.current_view = some ViewIndexSubmenu ∧
      s2.displayed = some View.submenu_view ∧
      s2.stopped = false ∧
      host_turn Input.back s2 = Except.ok s3 ∧
      s3.stopped = true ∧
      host_run_loop [] s3 = Except.ok s3 ∧
      app_free s3 = Except.ok final ∧
      submenu_and_widget_app_main
        [Input.menu_activate SubmenuItemsOption2,
         Input.button_press GuiButtonType.GuiButtonTypeCenter InputType.InputTypeShort,
         Input.back] Host.init = Except.ok (0, final) :=
  ⟨_, _, _, _, _, rfl, rfl, rfl, rfl, rfl, rfl, rfl, rfl, rfl, rfl, rfl, rfl, rfl, rfl, rfl,
    rfl, rfl⟩

/-- C5, as stated, fails: after startup, selection of option 1 and return to
the Menu, the Menu is displayed and the Panel still holds the text and the
"Back" button; `app_submenu_callback` with the unused identifier
`SubmenuItemsBack` then empties the Panel content. -/
theorem out_of_range_activation_clears_panel :
    ∃ h h1 : Host,
      perform_all
        [Action.activate SubmenuItemsOption1, Action.deliver,
         Action.press GuiButtonType.GuiButtonTypeCenter InputType.InputTypeShort,
         Action.deliver] startup = Except.ok h ∧
      h.current_view = some ViewIndexSubmenu ∧
      h.widget_elements = panel_content "Option 1 selected" ∧
      app_submenu_callback Context.app SubmenuItemsBack h = Except.ok h1 ∧
      h1.widget_elements = [] ∧
      h1.widget_elements ≠ h.widget_elements :=
  ⟨_, _, rfl, rfl, rfl, rfl, rfl, by decide⟩

/-- C5, amended: for every identifier other than the three options and every
prior host state, `app_submenu_callback` posts no event and leaves the
displayed view and the pending custom events unchanged; its only host call is
the reset of the Panel, whose content is empty afterwards. -/
theorem out_of_range_activation_only_resets (index : Nat) (h : Host)
    (h1 : index ≠ SubmenuItemsOption1) (h2 : index ≠ SubmenuItemsOption2)
    (h3 : index ≠ SubmenuItemsOption3) :
    ∃ h4 : Host,
      app_submenu_callback Context.app index h = Except.ok h4 ∧
      h4 = { h with widget_elements := [], trace := h.trace ++ [HostCall.widget_reset] } ∧
      h4.widget_elements = [] ∧
      h4.current_view = h.current_view ∧
      h4.custom_events = h.custom_events :=
  ⟨_, app_submenu_callback_other index h h1 h2 h3, rfl, rfl, rfl, rfl⟩

/-- C5, amended, at the identifier `SubmenuItemsBack` and the host after
startup. -/
theorem out_of_range_activation_only_resets_witness :
    SubmenuItemsBack ≠ SubmenuItemsOption1 ∧ SubmenuItemsBack ≠ SubmenuItemsOption2 ∧
    SubmenuItemsBack ≠ SubmenuItemsOption3 ∧
    ∃ h4 : Host,
      app_submenu_callback Context.app SubmenuItemsBack startup = Except.ok h4 ∧
      h4 = { startup with widget_elements := [],
                          trace := startup.trace ++ [HostCall.widget_reset] } ∧
      h4.widget_elements = [] ∧
      h4.current_view = startup.current_view ∧
      h4.custom_events = startup.custom_events :=
  ⟨by decide, by decide, by decide,
    out_of_range_activation_only_resets SubmenuItemsBack startup (by decide) (by decide)
      (by decide)⟩

/-- C6, as stated, fails: with Panel-1 displayed and the Panel holding the
text "Option 1 selected" and the "Back" button, a short press of the center
button and the delivery of the posted event display the Menu, and the Panel
content is still the two elements, not empty. -/
theorem return_to_menu_keeps_panel :
    ∃ h h2 : Host,
      perform_all [Action.activate SubmenuItemsOption1, Action.deliver] startup = Except.ok h ∧
      h.current_view = some ViewIndexWidget1 ∧
      h.widget_elements = panel_content "Option 1 selected" ∧
      perform_all
        [Action.press GuiButtonType.GuiButtonTypeCenter InputType.InputTypeShort,
         Action.deliver] h = Except.ok h2 ∧
      h2.current_view = some ViewIndexSubmenu ∧
      h2.widget_elements = panel_content "Option 1 selected" ∧
      h2.widget_elements ≠ [] :=
  ⟨_, _, rfl, rfl, rfl, rfl, rfl, rfl, by decide⟩

/-- C6, amended: from every host state (in particular with Panel-i displayed
and the Panel holding "Option i selected" and the "Back" button), a short press
of the center button followed by the delivery of the posted Menu event leaves
the Menu displayed and the Panel content unchanged; the content is replaced
only by the next menu activation, which leaves nothing of it. -/
theorem return_to_menu_preserves_panel (h : Host) :
    ∃ h1 h2 : Host,
      app_button_callback GuiButtonType.GuiButtonTypeCenter InputType.InputTypeShort
        Context.app h = Except.ok h1 ∧
      h1.custom_events = h.custom_events ++ [ViewIndexSubmenu] ∧
      app_custom_event_callback Context.app ViewIndexSubmenu h1 = Except.ok (true, h2) ∧
      h2.current_view = some ViewIndexSubmenu ∧
      h2.widget_elements = h.widget_elements ∧
      ∀ index : Nat, ∃ h3 : Host,
        app_submenu_callback Context.app index h2 = Except.ok h3 ∧
        h3.widget_elements =
          if index = SubmenuItemsOption1 then panel_content "Option 1 selected"
          else if index = SubmenuItemsOption2 then panel_content "Option 2 selected"
          else if index = SubmenuItemsOption3 then panel_content "Option 3 selected"
          else [] := by
  refine ⟨_, _, rfl, rfl, rfl, rfl, rfl, ?_⟩
  intro index
  by_cases h1 : index = 1
  · subst h1; exact ⟨_, app_submenu_callback_option1 _, rfl⟩
  by_cases h2 : index = 2
  · subst h2; exact ⟨_, app_submenu_callback_option2 _, rfl⟩
  by_cases h3 : index = 3
  · subst h3; exact ⟨_, app_submenu_callback_option3 _, rfl⟩
  · refine ⟨_, app_submenu_callback_other index _ h1 h2 h3, ?_⟩
    simp [h1, h2, h3, widget_reset, Host.log]

/-- C7: in every host state, `app_navigation_callback` with a non-null context
asks the run loop to stop, whatever view is displayed, changes nothing else,
and reports the input as handled.  It is the only callback that does: the menu
and button callbacks return with the stop flag as before and no stop among the
host calls they issued, and so does the custom-event callback whenever it
returns; and a run of `submenu_and_widget_app_main` without a back input
never returns. -/
theorem navigation_callback_stops (h : Host) :
    app_navigation_callback Context.app h = Except.ok (true, view_dispatcher_stop h) ∧
    view_dispatcher_stop h =
      { h with stopped := true, trace := h.trace ++ [HostCall.view_dispatcher_stop] } ∧
    (∀ index : Nat, ∃ (h1 : Host) (t : List HostCall),
      app_submenu_callback Context.app index h = Except.ok h1 ∧
      h1.stopped = h.stopped ∧ h1.trace = h.trace ++ t ∧
      t.all (fun c => !c.is_stop) = true) ∧
    (∀ (button_type : GuiButtonType) (input_type : InputType),
      ∃ (h1 : Host) (t : List HostCall),
      app_button_callback button_type input_type Context.app h = Except.ok h1 ∧
      h1.stopped = h.stopped ∧ h1.trace = h.trace ++ t ∧
      t.all (fun c => !c.is_stop) = true) ∧
    (∀ (event : Nat) (r : Bool × Host),
      app_custom_event_callback Context.app event h = Except.ok r →
      r.2.stopped = h.stopped ∧
      ∃ t, r.2.trace = h.trace ++ t ∧ t.all (fun c => !c.is_stop) = true) ∧
    (∀ inputs : List Input, Input.back ∉ inputs →
      submenu_and_widget_app_main inputs Host.init = Except.error Halt.run_blocked) := by
  refine ⟨rfl, rfl, ?_, ?_, ?_, main_blocks⟩
  · intro index
    by_cases e1 : index = 1
    · subst e1
      exact ⟨_, _, app_submenu_callback_option1 h, rfl, selected_trace _ _ h, rfl⟩
    by_cases e2 : index = 2
    · subst e2
      exact ⟨_, _, app_submenu_callback_option2 h, rfl, selected_trace _ _ h, rfl⟩
    by_cases e3 : index = 3
    · subst e3
      exact ⟨_, _, app_submenu_callback_option3 h, rfl, selected_trace _ _ h, rfl⟩
    · exact ⟨_, [HostCall.widget_reset], app_submenu_callback_other index h e1 e2 e3, rfl, rfl,
        rfl⟩
  · intro button_type input_type
    by_cases hc : button_type = GuiButtonType.GuiButtonTypeCenter ∧
        input_type = InputType.InputTypeShort
    · refine ⟨_, [HostCall.view_dispatcher_send_custom_event ViewIndexSubmenu],
        app_button_callback_app button_type input_type h, ?_⟩
      rw [if_pos hc]
      exact ⟨rfl, rfl, rfl⟩
    · refine ⟨_, [], app_button_callback_app button_type input_type h, ?_⟩
      rw [if_neg hc]
      exact ⟨rfl, (List.append_nil _).symm, rfl⟩
  · intro event r hr
    rw [app_custom_event_callback_app] at hr
    by_cases hlt : event < ViewIndexCount
    · rw [if_pos hlt] at hr; cases hr
      exact ⟨rfl, [_], rfl, rfl⟩
    · rw [if_neg hlt] at hr; cases hr

/-- C8: whenever the user eventually sends a back input,
`submenu_and_widget_app_main` returns (with exit code 0) and the host calls it
issued respect the order of `call_order`: the GUI handle is acquired before any
view or registry is allocated, the four slots are removed before the registry
is freed, the registry before the Panel View and the Menu View, both before
the GUI handle is released, the controller's memory last, and the slots
removed are exactly the slots registered. -/
theorem main_call_order (inputs : List Input) (hb : Input.back ∈ inputs) :
    ∃ final : Host,
      submenu_and_widget_app_main inputs Host.init = Except.ok (0, final) ∧
      call_order final.trace := by
  obtain ⟨final, mid, e, t, hm⟩ := main_returns inputs hb
  exact ⟨final, e, by rw [t]; exact call_order_of_run mid hm⟩

/-- C8, at a run where the user activates Option2 and then sends a back
input. -/
theorem main_call_order_witness :
    Input.back ∈ [Input.menu_activate SubmenuItemsOption2, Input.back] ∧
    ∃ final : Host,
      submenu_and_widget_app_main [Input.menu_activate SubmenuItemsOption2, Input.back]
        Host.init = Except.ok (0, final) ∧
      call_order final.trace :=
  ⟨by decide, main_call_order _ (by decide)⟩

/-- C9: after `app_alloc`, from any prior host state, the Menu holds exactly
the three items "Option 1", "Option 2", "Option 3" in order, with identifiers
Option1, Option2, Option3, each routed to `app_submenu_callback` with the
controller as context; the registry holds exactly the four slots Menu,
Panel-1, Panel-2, Panel-3, the Menu slot backed by the Menu View and the three
Panel slots by the one Panel View; the Panel content is empty; no view is
displayed. -/
theorem app_alloc_state (h : Host) :
    (app_alloc h).submenu_items =
      [SubmenuItem.mk "Option 1" SubmenuItemsOption1 Callback.app_submenu_callback Context.app,
       SubmenuItem.mk "Option 2" SubmenuItemsOption2 Callback.app_submenu_callback Context.app,
       SubmenuItem.mk "Option 3" SubmenuItemsOption3 Callback.app_submenu_callback Context.app] ∧
    (app_alloc h).views =
      [(ViewIndexSubmenu, View.submenu_view), (ViewIndexWidget1, View.widget_view),
       (ViewIndexWidget2, View.widget_view), (ViewIndexWidget3, View.widget_view)] ∧
    (app_alloc h).widget_elements = [] ∧
    (app_alloc h).current_view = none ∧
    (app_alloc h).displayed = none ∧
    (app_alloc h).custom_events = [] ∧
    (app_alloc h).custom_event_callback = some Callback.app_custom_event_callback ∧
    (app_alloc h).navigation_event_callback = some Callback.app_navigation_callback ∧
    (app_alloc h).event_context = Context.app ∧
    (app_alloc h).stopped = false :=
  ⟨rfl, rfl, rfl, rfl, rfl, rfl, rfl, rfl, rfl, rfl⟩

/-- C10: every custom event the controller posts is a view identifier: for
every identifier given to `app_submenu_callback` and every button and press
kind given to `app_button_callback`, the pending events after the call are the
pending events before it followed by posted values all below the identifier
count.  Hence after any sequence of menu activations, button activations and
event deliveries from startup, the callbacks have all returned (no assertion
failed), every pending event is below the identifier count, and the displayed
view is one of the four registered identifiers; and no run of
`submenu_and_widget_app_main` ends in a failed assertion. -/
theorem posted_events_are_view_ids :
    (∀ (index : Nat) (h : Host), ∃ (h1 : Host) (posted : List Nat),
      app_submenu_callback Context.app index h = Except.ok h1 ∧
      h1.custom_events = h.custom_events ++ posted ∧
      ∀ e ∈ posted, e < ViewIndexCount) ∧
    (∀ (button_type : GuiButtonType) (input_type : InputType) (h : Host),
      ∃ (h1 : Host) (posted : List Nat),
      app_button_callback button_type input_type Context.app h = Except.ok h1 ∧
      h1.custom_events = h.custom_events ++ posted ∧
      ∀ e ∈ posted, e < ViewIndexCount) ∧
    (∀ actions : List Action, ∃ h : Host,
      perform_all actions startup = Except.ok h ∧
      (∀ e ∈ h.custom_events, e < ViewIndexCount) ∧
      ∃ v, h.current_view = some v ∧ v < ViewIndexCount ∧
        (h.views.lookup v).isSome = true ∧ h.views = (app_alloc Host.init).views) ∧
    (∀ inputs : List Input,
      submenu_and_widget_app_main inputs Host.init ≠ Except.error Halt.assert_failed) := by
  refine ⟨?_, ?_, ?_, ?_⟩
  · intro index h
    by_cases e1 : index = 1
    · subst e1; exact ⟨_, [ViewIndexWidget1], app_submenu_callback_option1 h, rfl, by decide⟩
    by_cases e2 : index = 2
    · subst e2; exact ⟨_, [ViewIndexWidget2], app_submenu_callback_option2 h, rfl, by decide⟩
    by_cases e3 : index = 3
    · subst e3; exact ⟨_, [ViewIndexWidget3], app_submenu_callback_option3 h, rfl, by decide⟩
    · exact ⟨_, [], app_submenu_callback_other index h e1 e2 e3,
        (List.append_nil _).symm, by decide⟩
  · intro button_type input_type h
    by_cases hc : button_type = GuiButtonType.GuiButtonTypeCenter ∧
        input_type = InputType.InputTypeShort
    · refine ⟨_, [ViewIndexSubmenu], app_button_callback_app button_type input_type h, ?_⟩
      rw [if_pos hc]
      exact ⟨rfl, by decide⟩
    · refine ⟨_, [], app_button_callback_app button_type input_type h, ?_⟩
      rw [if_neg hc]
      exact ⟨(List.append_nil _).symm, by decide⟩
  · intro actions
    obtain ⟨h, e, s⟩ := perform_all_wired actions wired_startup
    obtain ⟨v, hv, hlt⟩ := s.wired.shown
    refine ⟨h, e, s.wired.events, v, hv, hlt, ?_, s.wired.views⟩
    rw [s.wired.views]
    have h4 : v < 4 := hlt
    interval_cases v <;> rfl
  · intro inputs
    by_cases hb : Input.back ∈ inputs
    · obtain ⟨final, mid, e, _⟩ := main_returns inputs hb
      rw [e]
      intro hx
      cases hx
    · rw [main_blocks inputs hb]
      intro hx
      cases hx

end SubmenuAndWidget
